import Mathlib

/-!
Shallow embedding of the Fictioneers SDK client (`src/index.js`).

The repository file contains two parallel implementations of the same class:
an older plain-JavaScript one (first half of the file) and a newer TypeScript
one (second half).  The TypeScript implementation carries the dual-mode
authentication logic (`_isKeySecret`, `_getAuthHeadersAudienceEndpoints`, the
`deprecated` flag, `initialiseAndProgressUser`), so it is the primary model;
the JavaScript variants of `setUserId` / `setAccessToken`, which differ in
behaviour, are embedded separately with a `JS` suffix.

Modelling conventions:
- Network calls are oracles: the remote token-exchange response and the remote
  HTTP response are passed in as explicit arguments, and each operation
  reports how many token-exchange calls it performed (`exchanges`).
- `Date.now()` is passed in as an integer argument `now` (milliseconds).
  A method that consults the clock more than once during one invocation is
  modelled with a single instant, which is the reading relevant to the claims.
- JavaScript `null`/`undefined` fields become `Option`; JS truthiness of the
  token string (`!this.accessToken`, false for `null` and `""`) is modelled
  explicitly by `tokenFalsy`.
- A thrown `Error` is modelled as `Except.error` carrying the message string.
- Response payloads that the code never inspects (user objects, timeline
  events) are abstracted as opaque `String`s.
-/

deriving instance DecidableEq for Except

/-- The mutable state of one `Fictioneers` client instance (TypeScript class
fields `apiKey`, `userId`, `accessToken`, `accessTokenExpiry`, `_endpoint`). -/
structure Fictioneers where
  apiKey : String
  userId : String
  accessToken : Option String
  accessTokenExpiry : Option Int
  endpoint : String
deriving DecidableEq

/-- Remote body of the token exchange (`POST /auth/token`), TypeScript
`TokenResponse` shape: `{ access_token, expires_in }`. -/
structure TokenResponse where
  access_token : String
  expires_in : Int
deriving DecidableEq

/-- Remote body of the JS token exchange (`POST /token`), which reads the
`id_token` field instead. -/
structure TokenResponseJS where
  id_token : String
  expires_in : Int
deriving DecidableEq

/-- The value `getAccessToken` / `setAccessToken` hand back to their caller:
`{ accessToken, expiresIn }`. -/
structure AccessTokenResponse where
  accessToken : String
  expiresIn : Int
deriving DecidableEq

namespace Fictioneers

/-- TypeScript constructor.  `userId == null` (null or undefined) is replaced
by a generated uuid, modelled by the oracle argument `generatedId`; note that
the empty string is NOT `== null` and is therefore kept as supplied.
`accessToken` and `accessTokenExpiry` start as `null`. -/
def construct (apiKey : String) (userId : Option String) (apiVersion : String)
    (generatedId : String) : Fictioneers :=
  { apiKey := apiKey
  , userId := userId.getD generatedId
  , accessToken := none
  , accessTokenExpiry := none
  , endpoint := "https://api.fictioneers.co.uk/v" ++ apiVersion }

/-- JS truthiness of the cached token: `!this.accessToken` is `true` exactly
when the field is `null`/`undefined` or the empty string. -/
def tokenFalsy : Option String → Bool
  | none => true
  | some t => t.isEmpty

/-- The expiry part of the TypeScript refresh condition:
`this.accessTokenExpiry == null || this.accessTokenExpiry < Date.now()`. -/
def expiryInvalid (now : Int) : Option Int → Bool
  | none => true
  | some e => e < now

/-- `this.apiKey.indexOf(SECRET_API_KEY_PREFIX) === 0` with
`SECRET_API_KEY_PREFIX = "s_"`: the key's first two characters are `s`, `_`. -/
def isKeySecret (s : Fictioneers) : Bool :=
  match s.apiKey.data with
  | 's' :: '_' :: _ => true
  | _ => false

/-- TypeScript `getAccessToken()`: performs the exchange (oracle `tr`), then
`this.accessToken = accessToken.access_token` — note that it does NOT touch
`this.accessTokenExpiry` — and returns `{ accessToken, expiresIn }`. -/
def getAccessToken (tr : TokenResponse) (s : Fictioneers) :
    AccessTokenResponse × Fictioneers :=
  (⟨tr.access_token, tr.expires_in⟩, { s with accessToken := some tr.access_token })

/-- Result of `setAccessToken`: the new session state, how many token
exchanges were performed (0 or 1), and the returned `AccessTokenResponse`. -/
structure SetTokenResult where
  session : Fictioneers
  exchanges : Nat
  value : AccessTokenResponse
deriving DecidableEq

/-- TypeScript `setAccessToken()`: refresh exactly when
`!this.accessToken || this.accessTokenExpiry == null || this.accessTokenExpiry < Date.now()`;
on refresh, `this.accessTokenExpiry = Date.now() + (expiresIn - 10) * 1000`.
The returned `expiresIn` uses integer division in place of JS float division;
no claim depends on that value. -/
def setAccessToken (now : Int) (tr : TokenResponse) (s : Fictioneers) :
    SetTokenResult :=
  if tokenFalsy s.accessToken || expiryInvalid now s.accessTokenExpiry then
    let g := getAccessToken tr s
    let s2 := { g.2 with accessToken := some g.1.accessToken
                       , accessTokenExpiry := some (now + (g.1.expiresIn - 10) * 1000) }
    ⟨s2, 1, ⟨s2.accessToken.getD "", (s2.accessTokenExpiry.getD 0 - now) / 1000 + 10⟩⟩
  else
    ⟨s, 0, ⟨s.accessToken.getD "", (s.accessTokenExpiry.getD 0 - now) / 1000 + 10⟩⟩

/-- Result of `setUserId`: `thrown` is the message of the thrown `Error` (or
`none` on success), plus the session state and the token-exchange count. -/
structure SetUserIdResult where
  thrown : Option String
  session : Fictioneers
  exchanges : Nat
deriving DecidableEq

/-- TypeScript `setUserId({userId})`: early return when the argument equals
the current userId; otherwise, when `userId.length` is truthy (nonzero),
replace the userId, clear the token and refresh via `setAccessToken`; else
throw. -/
def setUserId (now : Int) (tr : TokenResponse) (userId : String)
    (s : Fictioneers) : SetUserIdResult :=
  if userId = s.userId then
    ⟨none, s, 0⟩
  else if userId.length ≠ 0 then
    let s1 := { s with userId := userId, accessToken := none }
    let r := setAccessToken now tr s1
    ⟨none, r.session, r.exchanges⟩
  else
    ⟨some "The parameter userId must have length", s, 0⟩

/-- JS static `getAccessToken({userId, apiSecretKey})`: returns
`{ accessToken: response.id_token, expiresIn: response.expires_in }` without
touching any instance state. -/
def getAccessTokenJS (tr : TokenResponseJS) : AccessTokenResponse :=
  ⟨tr.id_token, tr.expires_in⟩

/-- The JS refresh condition `!this.accessToken || this.accessTokenExpiry < Date.now()`:
there is no `== null` guard, and in JS `null < now` coerces `null` to `0`. -/
def expiryLtJS (now : Int) : Option Int → Bool
  | none => 0 < now
  | some e => e < now

/-- JS `setAccessToken()`: refresh exactly when
`!this.accessToken || this.accessTokenExpiry < Date.now()`; returns nothing. -/
def setAccessTokenJS (now : Int) (tr : TokenResponseJS) (s : Fictioneers) :
    Fictioneers × Nat :=
  if tokenFalsy s.accessToken || expiryLtJS now s.accessTokenExpiry then
    let g := getAccessTokenJS tr
    ({ s with accessToken := some g.accessToken
            , accessTokenExpiry := some (now + (g.expiresIn - 10) * 1000) }, 1)
  else
    (s, 0)

/-- JS `setUserId({userId})`: no equality check — whenever `userId.length` is
truthy it replaces the userId, clears the token and fires `setAccessToken()`
(un-awaited in the source; modelled as completing). -/
def setUserIdJS (now : Int) (tr : TokenResponseJS) (userId : String)
    (s : Fictioneers) : SetUserIdResult :=
  if userId.length ≠ 0 then
    let s1 := { s with userId := userId, accessToken := none }
    let r := setAccessTokenJS now tr s1
    ⟨none, r.1, r.2⟩
  else
    ⟨some "The parameter userId must have length", s, 0⟩

/-- TypeScript `_commonRequestHeaders()`. -/
def commonRequestHeaders : List (String × String) :=
  [ ("Content-Type", "application/json")
  , ("Accept", "application/json")
  , ("Accept-Encoding", "application/json") ]

/-- TypeScript `_getAuthHeaderSecretKey()`: `{ Authorization: this.apiKey }`. -/
def getAuthHeaderSecretKey (s : Fictioneers) : List (String × String) :=
  [("Authorization", s.apiKey)]

/-- Result of `_getAuthHeadersAudienceEndpoints`: the header list (or the
thrown error), the session state, and the token-exchange count. -/
structure HeadersResult where
  result : Except String (List (String × String))
  session : Fictioneers
  exchanges : Nat
deriving DecidableEq

/-- TypeScript `_getAuthHeadersAudienceEndpoints()`: for a secret key, the
raw key as `Authorization` plus `Fictioneers-User-ID` with the userId, no
token exchange; otherwise `await this.setAccessToken()`, throw if the token
is still falsy, and send `Bearer <token>`. -/
def getAuthHeadersAudienceEndpoints (now : Int) (tr : TokenResponse)
    (s : Fictioneers) : HeadersResult :=
  if isKeySecret s then
    ⟨.ok [("Authorization", s.apiKey), ("Fictioneers-User-ID", s.userId)], s, 0⟩
  else
    let r := setAccessToken now tr s
    if tokenFalsy r.session.accessToken then
      ⟨.error "Could not assemble auth headers with bearer - no access token",
        r.session, r.exchanges⟩
    else
      ⟨.ok [("Authorization", "Bearer " ++ r.session.accessToken.getD "")],
        r.session, r.exchanges⟩

/-- The two auth modes of `_doFetch` (`auth?: "bearer" | "key"`). -/
inductive AuthMode where
  | bearer
  | key
deriving DecidableEq

/-- The four HTTP verbs of `_doFetch`. -/
inductive HttpMethod where
  | GET
  | POST
  | PATCH
  | DELETE
deriving DecidableEq

/-- A parsed JSON response body as far as `_doFetch` inspects it: either a
top-level array, or an envelope with `data`/`error`/`meta`/`status` fields
(each possibly `null`/absent); payload contents are opaque strings. -/
inductive RespBody where
  | arr (items : List String)
  | env (data : Option String) (error : Option String) (meta : Option String)
        (status : Option Int)
deriving DecidableEq

/-- The remote HTTP response handed to `_doFetch`: underlying status code,
status text, and parsed body (ignored for DELETE, whose remote body is
empty). -/
structure RemoteResponse where
  status : Nat
  statusText : String
  body : RespBody
deriving DecidableEq

/-- The deprecation notice appended by `_doFetch` (verbatim). -/
def deprecationNotice : String :=
  " Notice: this API endpoint has been deprecated and will be removed in a future version of this SDK."

/-- JS truthiness of `responseData.error` in the deprecation branch:
`null`/`undefined`/`""` are falsy. -/
def errorFalsy : Option String → Bool
  | none => true
  | some e => e.isEmpty

/-- `responseData.error ? responseData.error : ""` — the value the notice is
concatenated onto. -/
def priorError (e : Option String) : String :=
  if errorFalsy e then "" else e.getD ""

/-- `_doFetch`'s deprecation step: applied only when `deprecated &&
!Array.isArray(responseData)`; mutates only the `error` field. -/
def decorateDeprecated : RespBody → RespBody
  | .arr items => .arr items
  | .env d e m st => .env d (some (priorError e ++ deprecationNotice)) m st

/-- Header selection in `_doFetch`: `_getAuthHeadersAudienceEndpoints` for
`bearer`, `_getAuthHeaderSecretKey` for `key` (no exchange, no throw). -/
def authHeadersFor (now : Int) (tr : TokenResponse) (s : Fictioneers) :
    AuthMode → HeadersResult
  | .bearer => getAuthHeadersAudienceEndpoints now tr s
  | .key => ⟨.ok (getAuthHeaderSecretKey s), s, 0⟩

/-- Result of `_doFetch`: the returned body (or thrown error), the session
state, and the token-exchange count. -/
structure FetchResult where
  result : Except String RespBody
  session : Fictioneers
  exchanges : Nat
deriving DecidableEq

/-- TypeScript `_doFetch`: assemble auth headers (merged with the common
headers — the merge does not affect any claim), perform the request, then
either fabricate the uniform DELETE envelope
`{data: null, error: status >= 400 ? statusText : null, meta: null, status: 204}`
or return the body, decorated when the `deprecated` flag is set and the body
is not an array. -/
def doFetch (now : Int) (tr : TokenResponse) (resp : RemoteResponse)
    (s : Fictioneers) (method : HttpMethod) (auth : AuthMode)
    (deprecated : Bool) : FetchResult :=
  let a := authHeadersFor now tr s auth
  match a.result with
  | .error e => ⟨.error e, a.session, a.exchanges⟩
  | .ok hs =>
    let _headers := commonRequestHeaders ++ hs
    match method with
    | .DELETE =>
      ⟨.ok (.env none (if 400 ≤ resp.status then some resp.statusText else none)
            none (some 204)), a.session, a.exchanges⟩
    | _ =>
      ⟨.ok (if deprecated then decorateDeprecated resp.body else resp.body),
        a.session, a.exchanges⟩

/-- TypeScript `UserResponse` as far as the workflow inspects it: the `data`
field, with the user payload opaque. -/
structure UserResponse where
  data : Option String
deriving DecidableEq

/-- TypeScript `UserTimelineEventList` as far as the workflow inspects it. -/
structure UserTimelineEventList where
  data : Option (List String)
deriving DecidableEq

/-- The JSON body `createUser` posts to `POST /users`. -/
structure CreateUserBody where
  published_timeline_id : String
  timezone : String
  disable_time_guards : Bool
  pause_at_beats : Bool
  max_steps : Option Int
deriving DecidableEq

/-- The body built inside `createUser` (timezone fixed to "Europe/London"). -/
def createUserBody (timelineId : String) (disableTimeGuards : Bool)
    (pauseAtBeats : Bool) (maxSteps : Option Int) : CreateUserBody :=
  ⟨timelineId, "Europe/London", disableTimeGuards, pauseAtBeats, maxSteps⟩

/-- The endpoint calls `initialiseAndProgressUser` can issue, in order. -/
inductive ApiRequest where
  | getUserReq
  | createUserReq (body : CreateUserBody)
  | getUserTimelineEventsReq
deriving DecidableEq

/-- The value `initialiseAndProgressUser` resolves with.  `user` is
`none` when the local variable `user` was never assigned (remains
`undefined`), and `some d` when it was assigned `createUserResponse.data`
(itself possibly `null`). -/
structure InitialiseAndProgressUser where
  user : Option (Option String)
  userTimelineEvents : List String
deriving DecidableEq

/-- TypeScript `initialiseAndProgressUser`: `getUser()`; if its `data` is
`null`, `createUser(...)` and remember its `data` in `user`; then
`getUserTimelineEvents()` and resolve with
`{user, userTimelineEvents: eventsResponse.data || []}`.  The three remote
responses are oracles; the second component lists the endpoint calls issued,
in order. -/
def initialiseAndProgressUser (timelineId : String) (disableTimeGuards : Bool)
    (pauseAtBeats : Bool) (maxSteps : Option Int)
    (getUserResp : UserResponse) (createUserResp : UserResponse)
    (eventsResp : UserTimelineEventList) :
    InitialiseAndProgressUser × List ApiRequest :=
  match getUserResp.data with
  | none =>
    (⟨some createUserResp.data, eventsResp.data.getD []⟩,
      [.getUserReq,
       .createUserReq (createUserBody timelineId disableTimeGuards pauseAtBeats maxSteps),
       .getUserTimelineEventsReq])
  | some _ =>
    (⟨none, eventsResp.data.getD []⟩,
      [.getUserReq, .getUserTimelineEventsReq])

/-- The Client Session invariant claimed by the spec's data model:
`accessToken` and `accessTokenExpiry` are both absent or both present. -/
def tokenExpiryConsistent (s : Fictioneers) : Bool :=
  s.accessToken.isSome == s.accessTokenExpiry.isSome

/-! Theorems settling the claims. -/

/-- C1: for every session whose apiKey starts with the secret prefix "s_",
composing bearer-mode headers via `_getAuthHeadersAudienceEndpoints` performs
no token-exchange call and returns headers containing the raw apiKey as the
`Authorization` value and a `Fictioneers-User-ID` header carrying the
session's current userId. -/
theorem secret_key_bearer_headers_no_exchange (now : Int) (tr : TokenResponse)
    (s : Fictioneers) (h : isKeySecret s = true) :
    (getAuthHeadersAudienceEndpoints now tr s).exchanges = 0 ∧
    ∃ hs, (getAuthHeadersAudienceEndpoints now tr s).result = .ok hs ∧
      ("Authorization", s.apiKey) ∈ hs ∧ ("Fictioneers-User-ID", s.userId) ∈ hs := by
  refine ⟨by simp [getAuthHeadersAudienceEndpoints, h],
    [("Authorization", s.apiKey), ("Fictioneers-User-ID", s.userId)],
    by simp [getAuthHeadersAudienceEndpoints, h], by simp, by simp⟩

/-- Witness for C1 at a concrete secret-key session. -/
theorem secret_key_bearer_headers_witness :
    (getAuthHeadersAudienceEndpoints 0 ⟨"t", 60⟩ ⟨"s_abc", "u1", none, none, "e"⟩).exchanges = 0 ∧
    ∃ hs, (getAuthHeadersAudienceEndpoints 0 ⟨"t", 60⟩ ⟨"s_abc", "u1", none, none, "e"⟩).result = .ok hs ∧
      ("Authorization", "s_abc") ∈ hs ∧ ("Fictioneers-User-ID", "u1") ∈ hs :=
  secret_key_bearer_headers_no_exchange 0 ⟨"t", 60⟩ ⟨"s_abc", "u1", none, none, "e"⟩ rfl

/-- C2 counterexample: a cached token whose expiry timestamp equals the
current wall-clock time (here both 1000) is NOT treated as invalid —
`setAccessToken` performs no exchange and leaves the session untouched,
because the code refreshes only when `accessTokenExpiry < Date.now()`
strictly. -/
theorem expiry_boundary_counterexample :
    (setAccessToken 1000 ⟨"fresh", 60⟩ ⟨"p_key", "u1", some "tok", some 1000, "e"⟩).exchanges = 0 ∧
    (setAccessToken 1000 ⟨"fresh", 60⟩ ⟨"p_key", "u1", some "tok", some 1000, "e"⟩).session
      = ⟨"p_key", "u1", some "tok", some 1000, "e"⟩ := by
  decide

/-- C2 as amended: on refresh, the stored expiry equals the refresh time plus
`(expiresIn - 10)` seconds — for `expires_in = 60` exactly refresh time plus
50 seconds — but a cached non-empty token whose expiry is at or after the
current time (including the exact boundary) is treated as valid: no exchange
occurs and the state is unchanged. -/
theorem setAccessToken_margin_and_boundary (now : Int) (tr : TokenResponse)
    (s : Fictioneers) :
    ((tokenFalsy s.accessToken || expiryInvalid now s.accessTokenExpiry) = true →
      (setAccessToken now tr s).session.accessTokenExpiry
        = some (now + (tr.expires_in - 10) * 1000)) ∧
    ((tokenFalsy s.accessToken || expiryInvalid now s.accessTokenExpiry) = true →
      tr.expires_in = 60 →
      (setAccessToken now tr s).session.accessTokenExpiry = some (now + 50000)) ∧
    (∀ t e, s.accessToken = some t → t ≠ "" → s.accessTokenExpiry = some e →
      now ≤ e →
      (setAccessToken now tr s).exchanges = 0 ∧ (setAccessToken now tr s).session = s) := by
  refine ⟨?_, ?_, ?_⟩
  · intro h
    simp [setAccessToken, h, getAccessToken]
  · intro h h60
    simp [setAccessToken, h, getAccessToken, h60]
  · intro t e ht hne he hle
    have h1 : tokenFalsy s.accessToken = false := by
      rw [ht]
      simp only [tokenFalsy]
      exact Bool.eq_false_iff.mpr fun hemp => hne ((String.isEmpty_iff t).mp hemp)
    have h2 : expiryInvalid now s.accessTokenExpiry = false := by
      simp [expiryInvalid, he]
      omega
    simp [setAccessToken, h1, h2]

/-- Witness for C2's amended statement: a refresh at time 0 with
`expires_in = 60` stores expiry 50000 ms, and a token expiring at 1500 is
still valid at time 1000. -/
theorem setAccessToken_margin_witness :
    (setAccessToken 0 ⟨"tok", 60⟩ ⟨"p_key", "u1", none, none, "e"⟩).session.accessTokenExpiry
      = some 50000 ∧
    (setAccessToken 1000 ⟨"x", 60⟩ ⟨"p_key", "u1", some "tok", some 1500, "e"⟩).exchanges = 0 := by
  constructor
  · simpa using
      (setAccessToken_margin_and_boundary 0 ⟨"tok", 60⟩ ⟨"p_key", "u1", none, none, "e"⟩).2.1
        (by decide) rfl
  · exact ((setAccessToken_margin_and_boundary 1000 ⟨"x", 60⟩
      ⟨"p_key", "u1", some "tok", some 1500, "e"⟩).2.2 "tok" 1500 rfl (by decide) rfl
      (by decide)).1

/-- C3 counterexample: in the JS implementation, `setUserId` with the
currently-set value is NOT a no-op — it clears the cached token, performs a
token exchange, and ends with a different `accessToken`. -/
theorem setUserIdJS_same_id_mutates :
    (setUserIdJS 0 ⟨"newTok", 60⟩ "u1"
      ⟨"s_k", "u1", some "oldTok", some 99999, "e"⟩).session.accessToken ≠ some "oldTok" ∧
    (setUserIdJS 0 ⟨"newTok", 60⟩ "u1"
      ⟨"s_k", "u1", some "oldTok", some 99999, "e"⟩).exchanges = 1 := by
  decide

/-- C3 as amended: in the TypeScript implementation `setUserId` with the
current userId is a no-op (no mutation, no error, no exchange); in the JS
implementation the same call clears the token and triggers one exchange,
mutating the token fields. -/
theorem setUserId_same_id_noop (now : Int) (tr : TokenResponse)
    (trJS : TokenResponseJS) (s : Fictioneers) (h : s.userId.length ≠ 0) :
    setUserId now tr s.userId s = ⟨none, s, 0⟩ ∧
    setUserIdJS now trJS s.userId s =
      ⟨none, { s with accessToken := some trJS.id_token
                    , accessTokenExpiry := some (now + (trJS.expires_in - 10) * 1000) }, 1⟩ := by
  constructor
  · simp [setUserId]
  · simp [setUserIdJS, h, setAccessTokenJS, tokenFalsy, getAccessTokenJS]

/-- Witness for C3's amended statement at a concrete session. -/
theorem setUserId_same_id_noop_witness :
    setUserId 0 ⟨"t", 60⟩ "u1" ⟨"s_k", "u1", some "tok", some 5, "e"⟩
      = ⟨none, ⟨"s_k", "u1", some "tok", some 5, "e"⟩, 0⟩ ∧
    setUserIdJS 0 ⟨"jt", 60⟩ "u1" ⟨"s_k", "u1", some "tok", some 5, "e"⟩
      = ⟨none, ⟨"s_k", "u1", some "jt", some 50000, "e"⟩, 1⟩ := by
  have h := setUserId_same_id_noop 0 ⟨"t", 60⟩ ⟨"jt", 60⟩
    ⟨"s_k", "u1", some "tok", some 5, "e"⟩ (by decide)
  exact ⟨h.1, by simpa using h.2⟩

/-- C4: a DELETE dispatched through `_doFetch` (whose header assembly
succeeded) returns exactly `{data: null, error: null, meta: null, status: 204}`
on a 2xx remote response, and the same envelope with `error` equal to the
status text on a 404. -/
theorem doFetch_delete_normalization (now : Int) (tr : TokenResponse)
    (resp : RemoteResponse) (s : Fictioneers) (auth : AuthMode) (deprecated : Bool)
    (hauth : ∃ hs, (authHeadersFor now tr s auth).result = .ok hs) :
    (200 ≤ resp.status → resp.status ≤ 299 →
      (doFetch now tr resp s .DELETE auth deprecated).result
        = .ok (.env none none none (some 204))) ∧
    (resp.status = 404 →
      (doFetch now tr resp s .DELETE auth deprecated).result
        = .ok (.env none (some resp.statusText) none (some 204))) := by
  obtain ⟨hs, hok⟩ := hauth
  constructor
  · intro h1 h2
    have hlt : ¬ (400 ≤ resp.status) := by omega
    simp [doFetch, hok, hlt]
  · intro h404
    simp [doFetch, hok, h404]

/-- Witness for C4 at concrete 204 and 404 remote responses. -/
theorem doFetch_delete_witness :
    (doFetch 0 ⟨"t", 60⟩ ⟨204, "No Content", .arr []⟩ ⟨"s_k", "u", none, none, "e"⟩
      .DELETE .key false).result = .ok (.env none none none (some 204)) ∧
    (doFetch 0 ⟨"t", 60⟩ ⟨404, "Not Found", .arr []⟩ ⟨"s_k", "u", none, none, "e"⟩
      .DELETE .key false).result = .ok (.env none (some "Not Found") none (some 204)) := by
  constructor
  · exact (doFetch_delete_normalization 0 ⟨"t", 60⟩ ⟨204, "No Content", .arr []⟩
      ⟨"s_k", "u", none, none, "e"⟩ .key false ⟨_, rfl⟩).1 (by decide) (by decide)
  · exact (doFetch_delete_normalization 0 ⟨"t", 60⟩ ⟨404, "Not Found", .arr []⟩
      ⟨"s_k", "u", none, none, "e"⟩ .key false ⟨_, rfl⟩).2 rfl

/-- C5 counterexample: when `getUser()` finds an existing user (`data`
non-null), `initialiseAndProgressUser` leaves the result's `user` field
unassigned (`undefined`), rather than carrying the fetched existing-user
payload. -/
theorem initialiseAndProgressUser_existing_user_unset :
    (initialiseAndProgressUser "t1" false false none ⟨some "existing"⟩
      ⟨some "created"⟩ ⟨some []⟩).1.user = none ∧
    (initialiseAndProgressUser "t1" false false none ⟨some "existing"⟩
      ⟨some "created"⟩ ⟨some []⟩).1.user ≠ some (some "existing") := by
  decide

/-- C5 as amended: when the `getUser` response's `data` is null, exactly one
`createUser` POST with `published_timeline_id` equal to the given timelineId
is issued, followed by one `getUserTimelineEvents` GET, and the result's
`user` equals the `createUser` response's `data`; when `data` is non-null, no
`createUser` call is issued and the result's `user` is left unset. -/
theorem initialiseAndProgressUser_branches (tid : String) (dtg pab : Bool)
    (ms : Option Int) (gu cu : UserResponse) (ev : UserTimelineEventList) :
    (gu.data = none →
      (initialiseAndProgressUser tid dtg pab ms gu cu ev).2
        = [.getUserReq, .createUserReq (createUserBody tid dtg pab ms),
           .getUserTimelineEventsReq] ∧
      (createUserBody tid dtg pab ms).published_timeline_id = tid ∧
      (initialiseAndProgressUser tid dtg pab ms gu cu ev).1.user = some cu.data) ∧
    (∀ u, gu.data = some u →
      (initialiseAndProgressUser tid dtg pab ms gu cu ev).2
        = [.getUserReq, .getUserTimelineEventsReq] ∧
      (initialiseAndProgressUser tid dtg pab ms gu cu ev).1.user = none) := by
  constructor
  · intro h
    simp [initialiseAndProgressUser, h, createUserBody]
  · intro u h
    simp [initialiseAndProgressUser, h]

/-- Witness for C5's amended statement on the create branch. -/
theorem initialiseAndProgressUser_branches_witness :
    (initialiseAndProgressUser "t1" false false none ⟨none⟩ ⟨some "newUser"⟩
      ⟨some ["ev1"]⟩).2
      = [.getUserReq, .createUserReq (createUserBody "t1" false false none),
         .getUserTimelineEventsReq] ∧
    (initialiseAndProgressUser "t1" false false none ⟨none⟩ ⟨some "newUser"⟩
      ⟨some ["ev1"]⟩).1.user = some (some "newUser") := by
  have h := (initialiseAndProgressUser_branches "t1" false false none ⟨none⟩
    ⟨some "newUser"⟩ ⟨some ["ev1"]⟩).1 rfl
  exact ⟨h.1, h.2.2⟩

/-- C6 counterexample: with a public (non-secret) key and a cached token whose
expiry equals the current time (both 1000) — i.e. an expiry that is not in
the future — bearer-mode composition performs ZERO token exchanges, not one. -/
theorem bearer_boundary_no_exchange :
    (getAuthHeadersAudienceEndpoints 1000 ⟨"fresh", 60⟩
      ⟨"p_key", "u1", some "tok", some 1000, "e"⟩).exchanges = 0 := by
  decide

/-- C6 as amended: for a non-secret key, bearer-mode composition performs
exactly one exchange when the cached token is absent/empty, when the expiry
is null, or when the expiry is strictly in the past; and zero exchanges when
a non-empty token is cached whose expiry is at or after the current time. -/
theorem bearer_exchange_counts (now : Int) (tr : TokenResponse)
    (s : Fictioneers) (hpub : isKeySecret s = false) :
    (tokenFalsy s.accessToken = true →
      (getAuthHeadersAudienceEndpoints now tr s).exchanges = 1) ∧
    (s.accessTokenExpiry = none →
      (getAuthHeadersAudienceEndpoints now tr s).exchanges = 1) ∧
    (∀ e, s.accessTokenExpiry = some e → e < now →
      (getAuthHeadersAudienceEndpoints now tr s).exchanges = 1) ∧
    (∀ t e, s.accessToken = some t → t ≠ "" → s.accessTokenExpiry = some e →
      now ≤ e →
      (getAuthHeadersAudienceEndpoints now tr s).exchanges = 0) := by
  have hx : ∀ r : SetTokenResult, r = setAccessToken now tr s →
      (getAuthHeadersAudienceEndpoints now tr s).exchanges = r.exchanges := by
    intro r hr
    simp [getAuthHeadersAudienceEndpoints, hpub, ← hr]
    split <;> rfl
  refine ⟨?_, ?_, ?_, ?_⟩
  · intro h
    rw [hx _ rfl]
    simp [setAccessToken, h]
  · intro h
    rw [hx _ rfl]
    simp [setAccessToken, expiryInvalid, h]
  · intro e he hlt
    rw [hx _ rfl]
    simp [setAccessToken, expiryInvalid, he, hlt]
  · intro t e ht hne he hle
    rw [hx _ rfl]
    have h1 : tokenFalsy s.accessToken = false := by
      rw [ht]
      simp only [tokenFalsy]
      exact Bool.eq_false_iff.mpr fun hemp => hne ((String.isEmpty_iff t).mp hemp)
    have h2 : expiryInvalid now s.accessTokenExpiry = false := by
      simp [expiryInvalid, he]
      omega
    simp [setAccessToken, h1, h2]

/-- Witness for C6's amended statement: one exchange from an empty cache, zero
with a still-valid cached token. -/
theorem bearer_exchange_counts_witness :
    (getAuthHeadersAudienceEndpoints 0 ⟨"tok", 60⟩
      ⟨"p_key", "u1", none, none, "e"⟩).exchanges = 1 ∧
    (getAuthHeadersAudienceEndpoints 1000 ⟨"tok", 60⟩
      ⟨"p_key", "u1", some "cached", some 2000, "e"⟩).exchanges = 0 := by
  constructor
  · exact (bearer_exchange_counts 0 ⟨"tok", 60⟩ ⟨"p_key", "u1", none, none, "e"⟩
      rfl).1 rfl
  · exact (bearer_exchange_counts 1000 ⟨"tok", 60⟩
      ⟨"p_key", "u1", some "cached", some 2000, "e"⟩ rfl).2.2.2 "cached" 2000 rfl
      (by decide) rfl (by decide)

/-- C7: a non-DELETE call dispatched through `_doFetch` with the deprecated
flag set and a non-array body has its `error` field replaced by the prior
error value (empty when absent/null) concatenated with the deprecation
notice — a text containing "deprecated" — with `data` (and `meta`, `status`)
unchanged; a deprecated call whose body is a top-level array is returned
untouched. -/
theorem doFetch_deprecation_decoration (now : Int) (tr : TokenResponse)
    (resp : RemoteResponse) (s : Fictioneers) (method : HttpMethod)
    (auth : AuthMode) (hm : method ≠ .DELETE)
    (hauth : ∃ hs, (authHeadersFor now tr s auth).result = .ok hs) :
    (∀ d e m st, resp.body = .env d e m st →
      (doFetch now tr resp s method auth true).result
        = .ok (.env d (some (priorError e ++ deprecationNotice)) m st) ∧
      ∃ p q, priorError e ++ deprecationNotice = p ++ "deprecated" ++ q) ∧
    (∀ items, resp.body = .arr items →
      (doFetch now tr resp s method auth true).result = .ok (.arr items)) := by
  obtain ⟨hs, hok⟩ := hauth
  constructor
  · intro d e m st hb
    constructor
    · cases method <;> simp_all [doFetch, hok, decorateDeprecated]
    · refine ⟨priorError e ++ " Notice: this API endpoint has been ",
        " and will be removed in a future version of this SDK.", ?_⟩
      have hsplit : deprecationNotice
          = " Notice: this API endpoint has been " ++ "deprecated"
            ++ " and will be removed in a future version of this SDK." := by
        decide
      rw [hsplit, ← String.append_assoc, ← String.append_assoc]
  · intro items hb
    cases method <;> simp_all [doFetch, hok, decorateDeprecated]

/-- Witness for C7 at concrete envelope and array bodies. -/
theorem doFetch_deprecation_witness :
    (doFetch 0 ⟨"t", 60⟩ ⟨200, "OK", .env (some "payload") none none (some 200)⟩
      ⟨"s_k", "u", none, none, "e"⟩ .GET .key true).result
      = .ok (.env (some "payload") (some (priorError none ++ deprecationNotice))
          none (some 200)) ∧
    (doFetch 0 ⟨"t", 60⟩ ⟨200, "OK", .arr ["a"]⟩ ⟨"s_k", "u", none, none, "e"⟩
      .GET .key true).result = .ok (.arr ["a"]) := by
  constructor
  · exact ((doFetch_deprecation_decoration 0 ⟨"t", 60⟩
      ⟨200, "OK", .env (some "payload") none none (some 200)⟩
      ⟨"s_k", "u", none, none, "e"⟩ .GET .key (by decide) ⟨_, rfl⟩).1
      (some "payload") none none (some 200) rfl).1
  · exact (doFetch_deprecation_decoration 0 ⟨"t", 60⟩ ⟨200, "OK", .arr ["a"]⟩
      ⟨"s_k", "u", none, none, "e"⟩ .GET .key (by decide) ⟨_, rfl⟩).2 ["a"] rfl

/-- C8 counterexample: a session whose current userId is the empty string is
constructible (the constructor only replaces `null`, not `""`), and on it the
TypeScript `setUserId("")` hits the idempotence early-return: it does NOT
throw, returning with the state unchanged. -/
theorem setUserId_empty_on_empty_session :
    (construct "s_key" (some "") "1" "generated-id").userId = "" ∧
    setUserId 0 ⟨"t", 60⟩ "" (construct "s_key" (some "") "1" "generated-id")
      = ⟨none, construct "s_key" (some "") "1" "generated-id", 0⟩ := by
  decide

/-- C8 as amended: an empty userId argument makes `setUserId` throw
"The parameter userId must have length" and leaves the session unchanged,
provided (in the TypeScript implementation) the current userId is itself
non-empty; the JS implementation throws unconditionally on empty input. -/
theorem setUserId_empty_rejected (now : Int) (tr : TokenResponse)
    (trJS : TokenResponseJS) (s : Fictioneers) (h : s.userId ≠ "") :
    setUserId now tr "" s = ⟨some "The parameter userId must have length", s, 0⟩ ∧
    setUserIdJS now trJS "" s
      = ⟨some "The parameter userId must have length", s, 0⟩ := by
  constructor
  · have hne : ("" : String) ≠ s.userId := fun he => h he.symm
    simp [setUserId, hne]
  · simp [setUserIdJS]

/-- Witness for C8's amended statement at a concrete session. -/
theorem setUserId_empty_rejected_witness :
    setUserId 0 ⟨"t", 60⟩ "" ⟨"s_k", "u1", some "tok", some 5, "e"⟩
      = ⟨some "The parameter userId must have length",
         ⟨"s_k", "u1", some "tok", some 5, "e"⟩, 0⟩ ∧
    setUserIdJS 0 ⟨"jt", 60⟩ "" ⟨"s_k", "u1", some "tok", some 5, "e"⟩
      = ⟨some "The parameter userId must have length",
         ⟨"s_k", "u1", some "tok", some 5, "e"⟩, 0⟩ :=
  setUserId_empty_rejected 0 ⟨"t", 60⟩ ⟨"jt", 60⟩
    ⟨"s_k", "u1", some "tok", some 5, "e"⟩ (by decide)

/-- C9 counterexample: the public `getAccessToken` stores the exchanged token
without touching `accessTokenExpiry`, so from a fresh (consistent) session it
produces a state with a token and no expiry, violating the invariant. -/
theorem getAccessToken_breaks_consistency :
    tokenExpiryConsistent ⟨"s_k", "u1", none, none, "e"⟩ = true ∧
    tokenExpiryConsistent (getAccessToken ⟨"tok", 60⟩
      ⟨"s_k", "u1", none, none, "e"⟩).2 = false := by
  decide

/-- C9 as amended: `setAccessToken` and `setUserId` preserve the
both-absent-or-both-present invariant on `accessToken`/`accessTokenExpiry`;
`getAccessToken` does not (see the counterexample). -/
theorem token_expiry_consistency_preserved (now : Int) (tr : TokenResponse)
    (uid : String) (s : Fictioneers) (h : tokenExpiryConsistent s = true) :
    tokenExpiryConsistent (setAccessToken now tr s).session = true ∧
    tokenExpiryConsistent (setUserId now tr uid s).session = true := by
  constructor
  · by_cases hc : (tokenFalsy s.accessToken || expiryInvalid now s.accessTokenExpiry) = true
    · simp [setAccessToken, hc, getAccessToken, tokenExpiryConsistent]
    · simp [setAccessToken, hc, h]
  · by_cases h1 : uid = s.userId
    · simp [setUserId, h1, h]
    · by_cases h2 : uid.length ≠ 0
      · simp [setUserId, h1, h2, setAccessToken, tokenFalsy, getAccessToken,
          tokenExpiryConsistent]
      · simp [setUserId, h1, h2, h]

/-- Witness for C9's amended statement at a fresh public-key session. -/
theorem token_expiry_consistency_witness :
    tokenExpiryConsistent (setAccessToken 0 ⟨"tok", 60⟩
      ⟨"p_key", "u1", none, none, "e"⟩).session = true ∧
    tokenExpiryConsistent (setUserId 0 ⟨"tok", 60⟩ "u2"
      ⟨"p_key", "u1", none, none, "e"⟩).session = true :=
  token_expiry_consistency_preserved 0 ⟨"tok", 60⟩ "u2"
    ⟨"p_key", "u1", none, none, "e"⟩ (by decide)

/-- C10: the `userTimelineEvents` field of `initialiseAndProgressUser`'s
result is always a list (never null): the empty list when the events
response's `data` is null/absent, and that `data` otherwise — in both the
create-user branch and the existing-user branch. -/
theorem userTimelineEvents_total (tid : String) (dtg pab : Bool)
    (ms : Option Int) (gu cu : UserResponse) (ev : UserTimelineEventList) :
    (initialiseAndProgressUser tid dtg pab ms gu cu ev).1.userTimelineEvents
      = match ev.data with
        | none => []
        | some l => l := by
  cases h : gu.data <;> cases he : ev.data <;>
    simp [initialiseAndProgressUser, h, he]

end Fictioneers
